import Mathlib

/-!
Shallow embedding of `s3_handler.py`: an interactive shell issuing basic
object-storage operations against a cloud blob-storage backend.  The backend
(the boto3 client, the local filesystem and the clock) is modelled as a
structure of oracles (`S3Backend`); each wrapper method returns the value the
Python method returns (`Except.ok` for a normal return, `Except.error` for an
exception propagating out of the method) together with the list of backend
client calls it performed, in order.
-/

/-- REGION = 'us-east-2' -/
def REGION : String := "us-east-2"

/-- A botocore ClientError as observed by `deletedir`: `e.response['Error']['Code']`
is `code`, and `str(e)` (used when the error is formatted into a message) is `msg`. -/
structure ClientErr where
  code : String
  msg : String
deriving DecidableEq

/-- A Python exception escaping one of the wrapper methods. -/
inductive PyExc where
  /-- a botocore ClientError re-raised by `_get` or `_get_object`; the payload is
  `e.response['Error']['Code']` -/
  | clientError (code : String)
  /-- subscripting `None` (would occur if `_get_file_extension` returned `None`) -/
  | typeError
  /-- any other exception, identified by its text -/
  | exc (msg : String)
deriving DecidableEq

/-- One call to the boto3 client (the backend).  Local filesystem probes
(`os.path.exists`) and the clock are not backend calls. -/
inductive Call where
  | headBucket (bucket : String)
  | headObject (bucket object : String)
  | listBuckets
  | listObjects (bucket : String)
  | createBucket (bucket region : String)
  | uploadFile (src bucket object contentType : String)
  | downloadFile (bucket object target : String)
  | deleteObject (bucket object : String)
  | deleteBucket (bucket : String)
deriving DecidableEq

/-- The dict returned by `client.list_objects_v2(Bucket=...)`.  Iterating over a
Python dict yields its keys, so the response's key list (in iteration order) is
part of the model; `name` is `response['Name']` (the bucket name echoed back by
the service) and `contents` holds the listed objects' own keys. -/
structure ListObjectsResp where
  dictKeys : List String
  name : String
  contents : List String
deriving DecidableEq

/-- The external world as the handler sees it: the boto3 client's replies, the
local filesystem (`os.path.exists`) and the clock (`int(round(time.time()*1000))`
at the moment of the call).  `head_bucket`/`head_object` reply either with the
HTTP status of a non-raising response (`ok`) or with the raised ClientError's
error code (`error`). -/
structure S3Backend where
  head_bucket : String → Except String Nat
  head_object : String → String → Except String Nat
  list_buckets : List String
  list_objects_v2 : String → ListObjectsResp
  create_bucket : String → String → Except String Unit
  upload_file : String → String → String → String → Except String Unit
  download_file : String → String → String → Except String Unit
  delete_object : String → String → Except String Unit
  delete_bucket : String → Except ClientErr Unit
  path_exists : String → Bool
  time_millis : Nat

/-- The `error_message_dict` literal built by `S3Handler._error_messages`. -/
def error_message_dict : List (String × String) :=
  [("incorrect_parameter_number", "Incorrect number of parameters provided"),
   ("not_implemented", "Functionality not implemented yet!"),
   ("bucket_name_exists", "Directory already exists."),
   ("bucket_name_empty", "Directory name cannot be empty."),
   ("bucket_not_empty", "Directory is not empty. Delete objects before proceeding."),
   ("missing_source_file", "Source file cannot be found."),
   ("non_existent_bucket", "Directory does not exist."),
   ("non_existent_object", "Destination object does not exist."),
   ("not_authorized_bucket", "You are not authorized to access this directory"),
   ("unknown_error", "Something was not correct with the request. Try again.")]

/-- `S3Handler._error_messages(issue)`: a truthy (non-empty) key is looked up in
the dict (`none` models the KeyError a missing key would raise), a falsy key
returns the `unknown_error` entry. -/
def S3Handler._error_messages (issue : String) : Option String :=
  if issue ≠ "" then error_message_dict.lookup issue
  else error_message_dict.lookup "unknown_error"

/-- The string `self._error_messages(issue)` evaluates to at the call sites in
the wrappers: every call site passes a key present in the catalog, so the
`getD` default is unreachable there. -/
def errMsg (issue : String) : String :=
  (S3Handler._error_messages issue).getD ""

/-- `p.rfind(c)` on the character list of a Python string: the largest index
holding `c`, or `-1` when absent. -/
def lastIdxOf (cs : List Char) (c : Char) : Int :=
  (List.range cs.length).foldl
    (fun acc i => if cs.getD i ' ' = c then Int.ofNat i else acc) (-1)

/-- Models `os.path.splitext` (posixpath: sep `/`, extension separator `.`):
split at the last dot after the last slash, unless every character between the
start of the basename and that dot is itself a dot. -/
def splitext (p : String) : String × String :=
  let cs := p.data
  let sepIndex := lastIdxOf cs '/'
  let dotIndex := lastIdxOf cs '.'
  if sepIndex < dotIndex then
    let start := (sepIndex + 1).toNat
    let dot := dotIndex.toNat
    if (List.range (dot - start)).all (fun k => cs.getD (start + k) ' ' = '.') then
      (p, "")
    else (String.mk (cs.take dot), String.mk (cs.drop dot))
  else (p, "")

/-- `S3Handler._get(bucket_name)`: `head_bucket`, mapping a raised ClientError
with code '404' to `False`, code '200' to `True`, re-raising any other code;
a non-raising response yields `True` exactly when its HTTP status is 200. -/
def S3Handler._get (b : S3Backend) (bucket_name : String) : Except String Bool :=
  match b.head_bucket bucket_name with
  | .error code =>
      if code = "404" then .ok false
      else if code = "200" then .ok true
      else .error code
  | .ok status => if status = 200 then .ok true else .ok false

/-- `S3Handler._get_object(bucket_name, object_name)`: same contract as `_get`,
against `head_object`. -/
def S3Handler._get_object (b : S3Backend) (bucket_name object_name : String) :
    Except String Bool :=
  match b.head_object bucket_name object_name with
  | .error code =>
      if code = "404" then .ok false
      else if code = "200" then .ok true
      else .error code
  | .ok status => if status = 200 then .ok true else .ok false

/-- `S3Handler._get_file_extension(file_name)`: `os.path.splitext(file_name)`
when the local file exists, `None` otherwise (the Python function falls off the
end). -/
def S3Handler._get_file_extension (b : S3Backend) (file_name : String) :
    Option (String × String) :=
  if b.path_exists file_name then some (splitext file_name) else none

/-- `S3Handler.createdir(bucket_name)`.  The try/except catches, prints and
re-raises, so exceptions from `_get` and `create_bucket` propagate unchanged. -/
def S3Handler.createdir (b : S3Backend) (bucket_name : String) :
    Except PyExc String × List Call :=
  if bucket_name = "" then (.ok (errMsg "bucket_name_empty"), [])
  else
    match S3Handler._get b bucket_name with
    | .error code => (.error (.clientError code), [.headBucket bucket_name])
    | .ok bexists =>
      if bexists then (.ok (errMsg "bucket_name_exists"), [.headBucket bucket_name])
      else
        match b.create_bucket bucket_name REGION with
        | .error e =>
          (.error (.exc e), [.headBucket bucket_name, .createBucket bucket_name REGION])
        | .ok _ =>
          (.ok ("Directory " ++ bucket_name ++ " created."),
           [.headBucket bucket_name, .createBucket bucket_name REGION])

/-- `S3Handler.listdir(bucket_name)`.  Empty name: the names of all buckets,
joined with `, `.  Non-empty name: after the existence check, the loop
`for obj in object_list: result.append(object_list['Name'])` iterates over the
response dict's keys and appends the response's `Name` entry each time. -/
def S3Handler.listdir (b : S3Backend) (bucket_name : String) :
    Except PyExc String × List Call :=
  if bucket_name = "" then
    (.ok (String.intercalate ", " b.list_buckets), [.listBuckets])
  else
    match S3Handler._get b bucket_name with
    | .error code => (.error (.clientError code), [.headBucket bucket_name])
    | .ok bexists =>
      if !bexists then (.ok (errMsg "non_existent_bucket"), [.headBucket bucket_name])
      else
        let resp := b.list_objects_v2 bucket_name
        (.ok (String.intercalate ", " (resp.dictKeys.map (fun _ => resp.name))),
         [.headBucket bucket_name, .listObjects bucket_name])

/-- `S3Handler.upload(source_file_name, bucket_name, dest_object_name)`.
Note the source's try/except wraps the variable `action`, not the
`upload_file` call itself, which has already run: an exception raised by the
upload therefore propagates out of the method and the
"Failed to upload ..." string is never produced. -/
def S3Handler.upload (b : S3Backend)
    (source_file_name bucket_name dest_object_name : String) :
    Except PyExc String × List Call :=
  if !(b.path_exists source_file_name) then
    (.ok (errMsg "missing_source_file"), [])
  else
    match S3Handler._get b bucket_name with
    | .error code => (.error (.clientError code), [.headBucket bucket_name])
    | .ok bexists =>
      if !bexists then (.ok (errMsg "non_existent_bucket"), [.headBucket bucket_name])
      else
        let dest := if dest_object_name = "" then source_file_name else dest_object_name
        match S3Handler._get_file_extension b source_file_name with
        | none => (.error .typeError, [.headBucket bucket_name])
        | some fe =>
          match b.upload_file source_file_name bucket_name dest fe.2 with
          | .error e =>
            (.error (.exc e),
             [.headBucket bucket_name, .uploadFile source_file_name bucket_name dest fe.2])
          | .ok _ =>
            (.ok ("File " ++ source_file_name ++ " uploaded to bucket " ++ bucket_name ++ "."),
             [.headBucket bucket_name, .uploadFile source_file_name bucket_name dest fe.2])

/-- `S3Handler.download(dest_object_name, bucket_name, source_file_name)`.
When a local file already occupies the resolved path, the download target is
that path suffixed with `.bak.<epoch-millis>`; the pre-existing file is not
touched.  The try/except has the same dead shape as in `upload`, so a raising
`download_file` propagates. -/
def S3Handler.download (b : S3Backend)
    (dest_object_name bucket_name source_file_name : String) :
    Except PyExc String × List Call :=
  match S3Handler._get b bucket_name with
  | .error code => (.error (.clientError code), [.headBucket bucket_name])
  | .ok bexists =>
    if !bexists then (.ok (errMsg "non_existent_bucket"), [.headBucket bucket_name])
    else
      match S3Handler._get_object b bucket_name dest_object_name with
      | .error code =>
        (.error (.clientError code),
         [.headBucket bucket_name, .headObject bucket_name dest_object_name])
      | .ok oexists =>
        if !oexists then
          (.ok (errMsg "non_existent_object"),
           [.headBucket bucket_name, .headObject bucket_name dest_object_name])
        else
          let resolved := if source_file_name = "" then dest_object_name else source_file_name
          let target :=
            if b.path_exists resolved then resolved ++ ".bak." ++ toString b.time_millis
            else resolved
          match b.download_file bucket_name dest_object_name target with
          | .error e =>
            (.error (.exc e),
             [.headBucket bucket_name, .headObject bucket_name dest_object_name,
              .downloadFile bucket_name dest_object_name target])
          | .ok _ =>
            (.ok ("Object " ++ dest_object_name ++ " downloaded from bucket " ++ bucket_name ++ "."),
             [.headBucket bucket_name, .headObject bucket_name dest_object_name,
              .downloadFile bucket_name dest_object_name target])

/-- `S3Handler.delete(dest_object_name, bucket_name)`.  Same dead try/except as
`upload`: a raising `delete_object` propagates. -/
def S3Handler.delete (b : S3Backend) (dest_object_name bucket_name : String) :
    Except PyExc String × List Call :=
  match S3Handler._get b bucket_name with
  | .error code => (.error (.clientError code), [.headBucket bucket_name])
  | .ok bexists =>
    if !bexists then (.ok (errMsg "non_existent_bucket"), [.headBucket bucket_name])
    else
      match S3Handler._get_object b bucket_name dest_object_name with
      | .error code =>
        (.error (.clientError code),
         [.headBucket bucket_name, .headObject bucket_name dest_object_name])
      | .ok oexists =>
        if !oexists then
          (.ok (errMsg "non_existent_object"),
           [.headBucket bucket_name, .headObject bucket_name dest_object_name])
        else
          match b.delete_object bucket_name dest_object_name with
          | .error e =>
            (.error (.exc e),
             [.headBucket bucket_name, .headObject bucket_name dest_object_name,
              .deleteObject bucket_name dest_object_name])
          | .ok _ =>
            (.ok ("Object " ++ dest_object_name ++ " deleted from bucket " ++ bucket_name ++ "."),
             [.headBucket bucket_name, .headObject bucket_name dest_object_name,
              .deleteObject bucket_name dest_object_name])

/-- `S3Handler.deletedir(bucket_name)`: after the existence check, attempts the
bucket deletion; a ClientError with code 'BucketNotEmpty' is mapped to the
`bucket_not_empty` catalog message, any other ClientError to an ad hoc
formatted string.  (The `return e` after the else-return in the source is
unreachable.) -/
def S3Handler.deletedir (b : S3Backend) (bucket_name : String) :
    Except PyExc String × List Call :=
  match S3Handler._get b bucket_name with
  | .error code => (.error (.clientError code), [.headBucket bucket_name])
  | .ok bexists =>
    if !bexists then (.ok (errMsg "non_existent_bucket"), [.headBucket bucket_name])
    else
      match b.delete_bucket bucket_name with
      | .error ce =>
        if ce.code = "BucketNotEmpty" then
          (.ok (errMsg "bucket_not_empty"),
           [.headBucket bucket_name, .deleteBucket bucket_name])
        else
          (.ok ("Failed to delete bucket " ++ bucket_name ++ ": " ++ ce.msg),
           [.headBucket bucket_name, .deleteBucket bucket_name])
      | .ok _ =>
        (.ok ("Deleted bucket " ++ bucket_name ++ "."),
         [.headBucket bucket_name, .deleteBucket bucket_name])

/-- `S3Handler.find(file_extension, bucket_name)`: an unimplemented stub that
ignores both arguments. -/
def S3Handler.find (file_extension bucket_name : String) : String :=
  errMsg "not_implemented"

/-- Split a character list at every character satisfying `p`, keeping empty
pieces, exactly as Python's `str.split(sep)` does for a one-character `sep`
(so the empty list splits to one empty piece). -/
def splitPred (p : Char → Bool) : List Char → List (List Char)
  | [] => [[]]
  | c :: cs =>
    if p c then [] :: splitPred p cs
    else
      match splitPred p cs with
      | [] => [[c]]
      | t :: ts => (c :: t) :: ts

/-- Python's `s.split(sep)` for a one-character separator, e.g. the
`command_string.split(" ")` performed by the dispatcher. -/
def pySplit (sep : Char) (s : String) : List String :=
  (splitPred (fun c => c == sep) s.data).map String.mk

/-- The whitespace characters Python's no-argument `str.split()` splits on:
the 29 code points for which CPython's Py_UNICODE_ISSPACE holds (ASCII
whitespace including the information separators 1C-1F, NEL, NBSP, and the
Unicode space separators). -/
def pyIsSpace (c : Char) : Bool :=
  c = ' ' || c = '\t' || c = '\n' || c = '\x0b' || c = '\x0c' || c = '\r'
  || c = '\x1c' || c = '\x1d' || c = '\x1e' || c = '\x1f'
  || c = '\x85' || c = '\xa0' || c = '\u1680'
  || c = '\u2000' || c = '\u2001' || c = '\u2002' || c = '\u2003'
  || c = '\u2004' || c = '\u2005' || c = '\u2006' || c = '\u2007'
  || c = '\u2008' || c = '\u2009' || c = '\u200a' || c = '\u2028'
  || c = '\u2029' || c = '\u202f' || c = '\u205f' || c = '\u3000'

/-- Python's no-argument `s.split()`: maximal runs of non-whitespace
characters; equivalently, split at every whitespace character and drop the
empty pieces. -/
def wsTokens (s : String) : List (List Char) :=
  (splitPred pyIsSpace s.data).filter (fun t => !t.isEmpty)

/-- Concatenate pieces with a separator list between consecutive pieces
(Python's `sep.join(pieces)` at the character level). -/
def joinWith (sep : List Char) : List (List Char) → List Char
  | [] => []
  | [t] => t
  | t :: ts => t ++ sep ++ joinWith sep ts

/-- The shell's whitespace collapsing before dispatch:
`command_string = " ".join(command_string.split())`. -/
def collapseWs (s : String) : String :=
  String.mk (joinWith [' '] (wsTokens s))

/-- `S3Handler.dispatch(command_string)`: split on single spaces and switch on
the first token, validating minimum argument counts and extracting optional
arguments with defaults. -/
def S3Handler.dispatch (b : S3Backend) (command_string : String) :
    Except PyExc String × List Call :=
  let parts := pySplit ' ' command_string
  if parts.headD "" = "createdir" then
    if parts.length > 1 then S3Handler.createdir b (parts.getD 1 "")
    else (.ok (errMsg "bucket_name_empty"), [])
  else if parts.headD "" = "upload" then
    if parts.length < 3 then (.ok (errMsg "incorrect_parameter_number"), [])
    else
      S3Handler.upload b (parts.getD 1 "") (parts.getD 2 "")
        (if parts.length > 3 then parts.getD 3 "" else "")
  else if parts.headD "" = "download" then
    if parts.length < 3 then (.ok (errMsg "incorrect_parameter_number"), [])
    else
      S3Handler.download b (parts.getD 1 "") (parts.getD 2 "")
        (if parts.length > 3 then parts.getD 3 "" else "")
  else if parts.headD "" = "delete" then
    if parts.length < 3 then (.ok (errMsg "incorrect_parameter_number"), [])
    else S3Handler.delete b (parts.getD 1 "") (parts.getD 2 "")
  else if parts.headD "" = "deletedir" then
    if parts.length < 2 then (.ok (errMsg "incorrect_parameter_number"), [])
    else S3Handler.deletedir b (parts.getD 1 "")
  else if parts.headD "" = "find" then
    (.ok (S3Handler.find "" ""), [])
  else if parts.headD "" = "listdir" then
    S3Handler.listdir b (if parts.length > 1 then parts.getD 1 "" else "")
  else
    (.ok "Command not recognized.", [])

/-- A backend where nothing exists and every mutation succeeds; concrete
backends for the theorems below are built from it. -/
def emptyBackend : S3Backend where
  head_bucket := fun _ => .error "404"
  head_object := fun _ _ => .error "404"
  list_buckets := []
  list_objects_v2 := fun _ => ⟨[], "", []⟩
  create_bucket := fun _ _ => .ok ()
  upload_file := fun _ _ _ _ => .ok ()
  download_file := fun _ _ _ => .ok ()
  delete_object := fun _ _ => .ok ()
  delete_bucket := fun _ => .ok ()
  path_exists := fun _ => false
  time_millis := 0

/-- A backend with one bucket `b` holding the single object `obj.txt`; the
`list_objects_v2` response dict carries its usual keys, echoes the bucket name
in `Name`, and lists `obj.txt` in `Contents`. -/
def bList : S3Backend :=
  { emptyBackend with
    head_bucket := fun n => if n = "b" then .ok 200 else .error "404"
    list_buckets := ["alpha", "beta"]
    list_objects_v2 := fun _ =>
      ⟨["ResponseMetadata", "IsTruncated", "Contents", "Name", "Prefix", "MaxKeys",
        "KeyCount"], "b", ["obj.txt"]⟩ }

/-- A backend whose `head_bucket` reply is a non-raising response with HTTP
status 204. -/
def b204 : S3Backend :=
  { emptyBackend with head_bucket := fun _ => .ok 204 }

/-- A backend where every bucket and object existence probe succeeds with
status 200. -/
def bOkBackend : S3Backend :=
  { emptyBackend with
    head_bucket := fun _ => .ok 200
    head_object := fun _ _ => .ok 200 }

/-- A backend whose `head_bucket` raises a ClientError with code '403'. -/
def bErr403 : S3Backend :=
  { emptyBackend with head_bucket := fun _ => .error "403" }

/-- A backend for the upload bug: the local file `f.txt` exists, the bucket
exists, and the backend upload raises an exception with text `boom`. -/
def bUp : S3Backend :=
  { emptyBackend with
    head_bucket := fun _ => .ok 200
    path_exists := fun p => p == "f.txt"
    upload_file := fun _ _ _ _ => .error "boom" }

/-- A backend for the download backup test: bucket and object exist, a local
file occupies the path `o`, and the clock reads 1234 ms. -/
def b4 : S3Backend :=
  { emptyBackend with
    head_bucket := fun _ => .ok 200
    head_object := fun _ _ => .ok 200
    path_exists := fun p => p == "o"
    time_millis := 1234 }

/-- A backend where the bucket exists but deleting it raises a ClientError
with code 'BucketNotEmpty'. -/
def b6 : S3Backend :=
  { emptyBackend with
    head_bucket := fun _ => .ok 200
    delete_bucket := fun _ => .error ⟨"BucketNotEmpty", "nonempty"⟩ }

/-- No split result is the empty list of pieces. -/
theorem splitPred_ne_nil (p : Char → Bool) (cs : List Char) : splitPred p cs ≠ [] := by
  induction cs with
  | nil => simp [splitPred]
  | cons c cs ih =>
    simp only [splitPred]
    split
    · simp
    · split
      · simp
      · simp

/-- No piece produced by `splitPred` contains a separator character. -/
theorem mem_splitPred (p : Char → Bool) (cs : List Char) (t : List Char)
    (ht : t ∈ splitPred p cs) (c : Char) (hc : c ∈ t) : p c = false := by
  induction cs generalizing t with
  | nil =>
    simp [splitPred] at ht
    subst ht
    simp at hc
  | cons a cs ih =>
    simp only [splitPred] at ht
    by_cases ha : p a
    · rw [if_pos ha] at ht
      rcases List.mem_cons.mp ht with h | h
      · subst h; simp at hc
      · exact ih t h hc
    · rw [if_neg ha] at ht
      cases hsp : splitPred p cs with
      | nil => exact absurd hsp (splitPred_ne_nil p cs)
      | cons t' ts =>
        rw [hsp] at ht
        rcases List.mem_cons.mp ht with h | h
        · subst h
          rcases List.mem_cons.mp hc with h' | h'
          · subst h'; simpa using ha
          · exact ih t' (by rw [hsp]; exact List.mem_cons_self t' ts) h'
        · exact ih t (by rw [hsp]; exact List.mem_cons_of_mem t' h) hc

/-- Splitting a separator-free list yields that single piece. -/
theorem splitPred_single (sep : Char) (t : List Char)
    (h : ∀ c ∈ t, (c == sep) = false) :
    splitPred (fun c => c == sep) t = [t] := by
  induction t with
  | nil => simp [splitPred]
  | cons c t ih =>
    have hc : (c == sep) = false := h c (List.mem_cons_self c t)
    simp only [splitPred, hc]
    rw [ih (fun c hc => h c (List.mem_cons_of_mem _ hc))]
    simp

/-- Splitting past a leading separator-free piece peels that piece off. -/
theorem splitPred_append_sep (sep : Char) (t rest : List Char)
    (h : ∀ c ∈ t, (c == sep) = false) :
    splitPred (fun c => c == sep) (t ++ sep :: rest) =
      t :: splitPred (fun c => c == sep) rest := by
  induction t with
  | nil => simp [splitPred]
  | cons c t ih =>
    have hc : (c == sep) = false := h c (List.mem_cons_self c t)
    have ih2 := ih (fun c hc => h c (List.mem_cons_of_mem _ hc))
    simp only [List.cons_append, splitPred, hc, List.append_eq]
    rw [ih2]
    simp

/-- Splitting on a separator undoes joining with that separator, for a
non-empty list of separator-free pieces. -/
theorem splitPred_joinWith (sep : Char) (ts : List (List Char)) (hne : ts ≠ [])
    (h : ∀ t ∈ ts, ∀ c ∈ t, (c == sep) = false) :
    splitPred (fun c => c == sep) (joinWith [sep] ts) = ts := by
  induction ts with
  | nil => exact absurd rfl hne
  | cons t ts ih =>
    cases ts with
    | nil =>
      simp only [joinWith]
      exact splitPred_single sep t (h t (List.mem_cons_self t []))
    | cons t2 ts2 =>
      have hj : joinWith [sep] (t :: t2 :: ts2) = t ++ sep :: joinWith [sep] (t2 :: ts2) := by
        simp [joinWith]
      rw [hj, splitPred_append_sep sep t _ (h t (List.mem_cons_self t _))]
      rw [ih (by simp) (fun u hu c hc => h u (List.mem_cons_of_mem t hu) c hc)]

/-- A list holding some non-separator character splits into at least one
non-empty piece. -/
theorem filter_splitPred_ne_nil (p : Char → Bool) (cs : List Char)
    (h : cs.any (fun c => !p c) = true) :
    (splitPred p cs).filter (fun t => !t.isEmpty) ≠ [] := by
  induction cs with
  | nil => simp at h
  | cons c cs ih =>
    simp only [List.any_cons, Bool.or_eq_true] at h
    by_cases hc : p c
    · have hcs : cs.any (fun c => !p c) = true := by
        rcases h with h | h
        · simp [hc] at h
        · exact h
      simp only [splitPred, if_pos hc, List.filter_cons]
      simpa using ih hcs
    · cases hsp : splitPred p cs with
      | nil => exact absurd hsp (splitPred_ne_nil p cs)
      | cons t' ts =>
        simp only [splitPred, if_neg hc, hsp]
        simp [List.filter_cons]

/-- C1: listdir of a named, existing bucket should return the join of the
listed objects' keys.  The code instead appends the `Name` entry of the
`list_objects_v2` response (the bucket's own name) once per key of the
response dict: on a bucket `b` containing the single object `obj.txt` it
returns "b, b, b, b, b, b, b" where the spec requires "obj.txt".  The
bucket-less branch (join of all bucket names) does behave as claimed. -/
theorem C1_listdir_repeats_bucket_name :
    S3Handler.listdir bList "b" =
      (Except.ok "b, b, b, b, b, b, b", [Call.headBucket "b", Call.listObjects "b"])
  ∧ (bList.list_objects_v2 "b").contents = ["obj.txt"]
  ∧ String.intercalate ", " (bList.list_objects_v2 "b").contents = "obj.txt"
  ∧ ("b, b, b, b, b, b, b" : String) ≠ "obj.txt"
  ∧ S3Handler.listdir bList "" = (Except.ok "alpha, beta", [Call.listBuckets]) :=
  ⟨rfl, rfl, rfl, by decide, rfl⟩

/-- C2 counterexample: the claim says every backend reply other than a
success status 200 or a "not found" error makes the existence check raise.
But on a non-raising reply with HTTP status 204 the code returns `false`
instead of raising. -/
theorem C2_counterexample :
    b204.head_bucket "somebucket" = Except.ok 204
  ∧ S3Handler._get b204 "somebucket" = Except.ok false := ⟨rfl, rfl⟩

/-- C2 (amended): the existence check returns true on a non-raising reply
with HTTP status 200 and false on a non-raising reply with any other status;
on a raised error it returns false for code '404', true for code '200', and
re-raises any other code.  The identical contract holds for the object
existence check. -/
theorem C2_existence_check_contract (b : S3Backend) (bucket object : String) :
    (b.head_bucket bucket = .ok 200 → S3Handler._get b bucket = .ok true)
  ∧ (∀ s, b.head_bucket bucket = .ok s → s ≠ 200 → S3Handler._get b bucket = .ok false)
  ∧ (b.head_bucket bucket = .error "404" → S3Handler._get b bucket = .ok false)
  ∧ (b.head_bucket bucket = .error "200" → S3Handler._get b bucket = .ok true)
  ∧ (∀ c, b.head_bucket bucket = .error c → c ≠ "404" → c ≠ "200" →
      S3Handler._get b bucket = .error c)
  ∧ (b.head_object bucket object = .ok 200 →
      S3Handler._get_object b bucket object = .ok true)
  ∧ (∀ s, b.head_object bucket object = .ok s → s ≠ 200 →
      S3Handler._get_object b bucket object = .ok false)
  ∧ (b.head_object bucket object = .error "404" →
      S3Handler._get_object b bucket object = .ok false)
  ∧ (b.head_object bucket object = .error "200" →
      S3Handler._get_object b bucket object = .ok true)
  ∧ (∀ c, b.head_object bucket object = .error c → c ≠ "404" → c ≠ "200" →
      S3Handler._get_object b bucket object = .error c) :=
  ⟨fun h => by simp [S3Handler._get, h],
   fun s h hs => by simp [S3Handler._get, h, hs],
   fun h => by simp [S3Handler._get, h],
   fun h => by simp [S3Handler._get, h],
   fun c h h4 h2 => by simp [S3Handler._get, h, h4, h2],
   fun h => by simp [S3Handler._get_object, h],
   fun s h hs => by simp [S3Handler._get_object, h, hs],
   fun h => by simp [S3Handler._get_object, h],
   fun h => by simp [S3Handler._get_object, h],
   fun c h h4 h2 => by simp [S3Handler._get_object, h, h4, h2]⟩

/-- C2 witness: the contract evaluated on concrete backends. -/
theorem C2_witness :
    S3Handler._get bOkBackend "b" = Except.ok true
  ∧ S3Handler._get emptyBackend "b" = Except.ok false
  ∧ S3Handler._get bErr403 "b" = Except.error "403"
  ∧ S3Handler._get_object bOkBackend "b" "o" = Except.ok true :=
  ⟨(C2_existence_check_contract bOkBackend "b" "o").1 rfl,
   (C2_existence_check_contract emptyBackend "b" "o").2.2.1 rfl,
   (C2_existence_check_contract bErr403 "b" "o").2.2.2.2.1 "403" rfl (by decide) (by decide),
   (C2_existence_check_contract bOkBackend "b" "o").2.2.2.2.2.1 rfl⟩

/-- C3: the claim says a failing backend upload is caught and mapped to a
"Failed to upload ..." string.  The source evaluates `upload_file` eagerly and
then wraps only the already-obtained result in try/except, so the exception
escapes `upload`: with an existing local file `f.txt`, an existing bucket `b`
and a backend upload raising `boom`, the method raises instead of returning a
failure string. -/
theorem C3_upload_exception_escapes :
    S3Handler.upload bUp "f.txt" "b" "" =
      (Except.error (PyExc.exc "boom"),
       [Call.headBucket "b", Call.uploadFile "f.txt" "b" "f.txt" ".txt"]) := rfl

/-- C4: when both existence checks pass and a local file already occupies the
resolved path, the backend download is invoked with exactly that path suffixed
`.bak.<epoch-millis of the call>`, and the suffixed target differs from the
pre-existing path (which no backend call writes). -/
theorem C4_download_backup_target (b : S3Backend) (don bn sfn : String)
    (hb : S3Handler._get b bn = Except.ok true)
    (ho : S3Handler._get_object b bn don = Except.ok true)
    (hex : b.path_exists (if sfn = "" then don else sfn) = true) :
    (S3Handler.download b don bn sfn).2 =
      [Call.headBucket bn, Call.headObject bn don,
       Call.downloadFile bn don
         ((if sfn = "" then don else sfn) ++ ".bak." ++ toString b.time_millis)]
  ∧ ((if sfn = "" then don else sfn) ++ ".bak." ++ toString b.time_millis)
      ≠ (if sfn = "" then don else sfn) := by
  constructor
  · unfold S3Handler.download
    rw [hb, ho]
    simp only [hex]
    cases hdl : b.download_file bn don
        ((if sfn = "" then don else sfn) ++ ".bak." ++ toString b.time_millis) <;>
      simp [hdl]
  · intro hcontra
    have hlen := congrArg String.length hcontra
    rw [String.length_append, String.length_append] at hlen
    have h5 : (".bak." : String).length = 5 := rfl
    omega

/-- C4 witness: on backend `b4` (bucket and object exist, local file `o`
exists, clock at 1234 ms) the download call targets `o.bak.1234`. -/
theorem C4_witness :
    (S3Handler.download b4 "o" "b" "").2 =
      [Call.headBucket "b", Call.headObject "b" "o", Call.downloadFile "b" "o" "o.bak.1234"]
  ∧ ("o.bak.1234" : String) ≠ "o" :=
  C4_download_backup_target b4 "o" "b" "" rfl rfl rfl

/-- C5: each operation keyword supplied with fewer than its minimum required
arguments makes the dispatcher return the `incorrect_parameter_number` catalog
message without calling the backend, except `createdir` with zero arguments,
which returns the `bucket_name_empty` message; `find` always dispatches to the
stub and `listdir` always dispatches to `listdir`, so neither has a minimum
argument error. -/
theorem C5_dispatch_min_args (b : S3Backend) (cs : String) :
    ((pySplit ' ' cs).headD "" = "upload" → (pySplit ' ' cs).length < 3 →
      S3Handler.dispatch b cs = (.ok (errMsg "incorrect_parameter_number"), []))
  ∧ ((pySplit ' ' cs).headD "" = "download" → (pySplit ' ' cs).length < 3 →
      S3Handler.dispatch b cs = (.ok (errMsg "incorrect_parameter_number"), []))
  ∧ ((pySplit ' ' cs).headD "" = "delete" → (pySplit ' ' cs).length < 3 →
      S3Handler.dispatch b cs = (.ok (errMsg "incorrect_parameter_number"), []))
  ∧ ((pySplit ' ' cs).headD "" = "deletedir" → (pySplit ' ' cs).length < 2 →
      S3Handler.dispatch b cs = (.ok (errMsg "incorrect_parameter_number"), []))
  ∧ ((pySplit ' ' cs).headD "" = "createdir" → (pySplit ' ' cs).length = 1 →
      S3Handler.dispatch b cs = (.ok (errMsg "bucket_name_empty"), []))
  ∧ ((pySplit ' ' cs).headD "" = "find" →
      S3Handler.dispatch b cs = (.ok (errMsg "not_implemented"), []))
  ∧ ((pySplit ' ' cs).headD "" = "listdir" →
      S3Handler.dispatch b cs =
        S3Handler.listdir b
          (if (pySplit ' ' cs).length > 1 then (pySplit ' ' cs).getD 1 "" else "")) :=
  ⟨fun h1 h2 => by simp_all [S3Handler.dispatch],
   fun h1 h2 => by simp_all [S3Handler.dispatch],
   fun h1 h2 => by simp_all [S3Handler.dispatch],
   fun h1 h2 => by simp_all [S3Handler.dispatch],
   fun h1 h2 => by simp_all [S3Handler.dispatch],
   fun h1 => by simp_all [S3Handler.dispatch, S3Handler.find],
   fun h1 => by simp_all [S3Handler.dispatch]⟩

/-- C5 witness: each under-supplied command evaluated concretely. -/
theorem C5_witness :
    S3Handler.dispatch emptyBackend "upload onlyone" =
      (Except.ok (errMsg "incorrect_parameter_number"), [])
  ∧ S3Handler.dispatch emptyBackend "download obj" =
      (Except.ok (errMsg "incorrect_parameter_number"), [])
  ∧ S3Handler.dispatch emptyBackend "delete obj" =
      (Except.ok (errMsg "incorrect_parameter_number"), [])
  ∧ S3Handler.dispatch emptyBackend "deletedir" =
      (Except.ok (errMsg "incorrect_parameter_number"), [])
  ∧ S3Handler.dispatch emptyBackend "createdir" =
      (Except.ok (errMsg "bucket_name_empty"), [])
  ∧ S3Handler.dispatch emptyBackend "find" =
      (Except.ok (errMsg "not_implemented"), [])
  ∧ S3Handler.dispatch emptyBackend "listdir" = S3Handler.listdir emptyBackend "" :=
  ⟨(C5_dispatch_min_args emptyBackend "upload onlyone").1 (by decide) (by decide),
   (C5_dispatch_min_args emptyBackend "download obj").2.1 (by decide) (by decide),
   (C5_dispatch_min_args emptyBackend "delete obj").2.2.1 (by decide) (by decide),
   (C5_dispatch_min_args emptyBackend "deletedir").2.2.2.1 (by decide) (by decide),
   (C5_dispatch_min_args emptyBackend "createdir").2.2.2.2.1 (by decide) (by decide),
   (C5_dispatch_min_args emptyBackend "find").2.2.2.2.2.1 (by decide),
   (C5_dispatch_min_args emptyBackend "listdir").2.2.2.2.2.2 (by decide)⟩

/-- C6: when the bucket exists and the backend delete raises a ClientError
with code 'BucketNotEmpty', deletedir returns exactly the `bucket_not_empty`
catalog sentence and the only backend calls are the existence check and the
single failed delete attempt (so no further mutation occurs and the bucket
remains). -/
theorem C6_deletedir_bucket_not_empty (b : S3Backend) (bn m : String)
    (hb : S3Handler._get b bn = Except.ok true)
    (hd : b.delete_bucket bn = Except.error ⟨"BucketNotEmpty", m⟩) :
    S3Handler.deletedir b bn =
      (Except.ok "Directory is not empty. Delete objects before proceeding.",
       [Call.headBucket bn, Call.deleteBucket bn]) := by
  have hmsg : errMsg "bucket_not_empty" =
      "Directory is not empty. Delete objects before proceeding." := rfl
  unfold S3Handler.deletedir
  rw [hb, hd]
  simp [hmsg]

/-- C6 witness: backend `b6` rejects the delete with 'BucketNotEmpty'. -/
theorem C6_witness :
    S3Handler.deletedir b6 "bkt" =
      (Except.ok "Directory is not empty. Delete objects before proceeding.",
       [Call.headBucket "bkt", Call.deleteBucket "bkt"]) :=
  C6_deletedir_bucket_not_empty b6 "bkt" "nonempty" rfl rfl

/-- C7: when no local file exists at the source path, upload returns exactly
the `missing_source_file` catalog message and performs no backend call at
all. -/
theorem C7_upload_missing_source (b : S3Backend) (sfn bn don : String)
    (h : b.path_exists sfn = false) :
    S3Handler.upload b sfn bn don = (.ok (errMsg "missing_source_file"), [])
  ∧ errMsg "missing_source_file" = "Source file cannot be found." :=
  ⟨by simp [S3Handler.upload, h], rfl⟩

/-- C7 witness: on the empty backend no local file exists. -/
theorem C7_witness :
    S3Handler.upload emptyBackend "missing.txt" "somebucket" "" =
      (Except.ok (errMsg "missing_source_file"), [])
  ∧ errMsg "missing_source_file" = "Source file cannot be found." :=
  C7_upload_missing_source emptyBackend "missing.txt" "somebucket" "" rfl

/-- C8: any command line whose first token is `find` dispatches to the stub
with both arguments forced to the empty string (user-supplied arguments are
discarded), and the stub returns the `not_implemented` catalog sentence. -/
theorem C8_find_stub (b : S3Backend) (cs : String)
    (h1 : (pySplit ' ' cs).headD "" = "find") :
    S3Handler.dispatch b cs = (.ok (S3Handler.find "" ""), [])
  ∧ S3Handler.find "" "" = "Functionality not implemented yet!" := by
  constructor
  · simp_all [S3Handler.dispatch]
  · rfl

/-- C8 witness: `find anything somebucket` ignores both arguments. -/
theorem C8_witness :
    S3Handler.dispatch emptyBackend "find anything somebucket" =
      (Except.ok (S3Handler.find "" ""), [])
  ∧ S3Handler.find "" "" = "Functionality not implemented yet!" :=
  C8_find_stub emptyBackend "find anything somebucket" (by decide)

/-- C9 counterexample: the claim quantifies over every input line, but on the
empty line (and likewise on a line of nothing but whitespace, such as the
file-separator character 1C, which Python's no-argument split treats as
whitespace) the collapsed string is empty, and Python's `"".split(" ")` is the
one-element list holding the empty token, so the dispatcher does obtain an
empty-string token. -/
theorem C9_counterexample :
    pySplit ' ' (collapseWs "") = [""] ∧ "" ∈ pySplit ' ' (collapseWs "")
  ∧ pySplit ' ' (collapseWs "\x1c") = [""] := by
  refine ⟨rfl, by decide, rfl⟩

/-- C9 (amended): for every input line holding at least one non-whitespace
character, the token sequence the dispatcher obtains by splitting the
whitespace-collapsed line on spaces contains no empty-string token. -/
theorem C9_collapsed_tokens_nonempty (s : String)
    (h : s.data.any (fun c => !pyIsSpace c) = true) :
    "" ∉ pySplit ' ' (collapseWs s) := by
  have hne : wsTokens s ≠ [] := filter_splitPred_ne_nil pyIsSpace s.data h
  have hmem : ∀ t ∈ wsTokens s, ∀ c ∈ t, (c == ' ') = false := by
    intro t ht c hc
    have hp := mem_splitPred pyIsSpace s.data t (List.mem_of_mem_filter ht) c hc
    have hcs : c ≠ ' ' := by
      intro hc'
      subst hc'
      simp [pyIsSpace] at hp
    simpa using hcs
  have hnonempty : ∀ t ∈ wsTokens s, t ≠ [] := by
    intro t ht
    have hf := List.of_mem_filter ht
    simpa using hf
  have hdata : (collapseWs s).data = joinWith [' '] (wsTokens s) := rfl
  have hsplit : splitPred (fun c => c == ' ') ((collapseWs s).data) = wsTokens s := by
    rw [hdata]
    exact splitPred_joinWith ' ' (wsTokens s) hne hmem
  intro hmem2
  unfold pySplit at hmem2
  rw [hsplit] at hmem2
  rcases List.mem_map.mp hmem2 with ⟨t, ht, hmk⟩
  have ht0 : t = [] := by
    have hd : (String.mk t).data = ("" : String).data := by rw [hmk]
    simpa using hd
  exact hnonempty t ht ht0

/-- C9 witness: a line with collapsible whitespace yields no empty token. -/
theorem C9_witness :
    ("a  b".data.any (fun c => !pyIsSpace c) = true)
  ∧ "" ∉ pySplit ' ' (collapseWs "a  b") :=
  ⟨by decide, C9_collapsed_tokens_nonempty "a  b" (by decide)⟩

/-- C10: the error-catalog lookup returns the `unknown_error` sentence for the
falsy (empty) key instead of failing, and each recognized key returns its
fixed catalog sentence. -/
theorem C10_error_catalog :
    S3Handler._error_messages "" =
      some "Something was not correct with the request. Try again."
  ∧ S3Handler._error_messages "incorrect_parameter_number" =
      some "Incorrect number of parameters provided"
  ∧ S3Handler._error_messages "not_implemented" =
      some "Functionality not implemented yet!"
  ∧ S3Handler._error_messages "bucket_name_exists" = some "Directory already exists."
  ∧ S3Handler._error_messages "bucket_name_empty" = some "Directory name cannot be empty."
  ∧ S3Handler._error_messages "bucket_not_empty" =
      some "Directory is not empty. Delete objects before proceeding."
  ∧ S3Handler._error_messages "missing_source_file" = some "Source file cannot be found."
  ∧ S3Handler._error_messages "non_existent_bucket" = some "Directory does not exist."
  ∧ S3Handler._error_messages "non_existent_object" =
      some "Destination object does not exist."
  ∧ S3Handler._error_messages "not_authorized_bucket" =
      some "You are not authorized to access this directory"
  ∧ S3Handler._error_messages "unknown_error" =
      some "Something was not correct with the request. Try again." :=
  ⟨rfl, rfl, rfl, rfl, rfl, rfl, rfl, rfl, rfl, rfl, rfl⟩
